import Mathlib

/-!
Verification of `streamlit` (delta_generator.py, elements/slider.py) against
its natural-language specification.

The Python source is shallowly embedded: pure marshalling code becomes Lean
functions, exceptions become `Except`, the per-session message queue becomes
explicit state passing.  Python ints are `Int`, Python floats appearing in
`progress` are modelled as `Rat` (the code only multiplies by 100 and
truncates; the claims compare the code with the very same expression, so the
rational model is exact for the relation being checked).

Modules of this repository that are referenced but not included under `src/`
(`streamlit.cursor`, `streamlit.report_thread`, `streamlit.errors`,
`streamlit.proto.*`, `streamlit.js_number`, `streamlit.type_util`,
`streamlit.elements.utils`, `streamlit.elements.data_frame_proto`, pandas)
are modelled abstractly: cursors as records exposing exactly the interface
`delta_generator.py` uses, the session context as an optional message queue,
`JSNumber.validate_int_bounds` as an arbitrary predicate parameter shared by
all call sites, and dataframes as opaque payloads carrying the attributes the
embedded code inspects.
-/

set_option autoImplicit false

namespace Streamlit

/-- The `BlockPath.Container` proto enum values used by `delta_generator.py`
(`MAIN`, `SIDEBAR`).  The proto file is external to `src/`; the truthiness
test `if self._container` distinguishes a real container from `None`, which
we model with `Option Container`. -/
inductive Container where
  | main
  | sidebar
deriving DecidableEq, Repr

/-- Modelled from the spec: "a cursor abstraction tracking tree position"
(`streamlit/cursor.py` is not under `src/`).  A cursor exposes exactly what
`delta_generator.py` reads from it: `path`, `index`, the `is_locked` flag,
and the `props` entries `delta_type` / `last_index` of a locked cursor.
The `get_locked_cursor` method lives in the external module; it is passed
to the embedded functions as an uninterpreted function
`lock : Cursor → Option String → Option Int → Cursor`
(arguments: the cursor, `delta_type`, `last_index`). -/
structure Cursor where
  path : List Nat
  index : Nat
  isLocked : Bool
  deltaType : Option String
  lastIndex : Option Int
deriving DecidableEq, Repr

/-- `DeltaGenerator`, reduced to the two fields the embedded methods read:
`self._container` and the resolved `self._cursor` property.  (`_cursor`
resolves `_provided_cursor`, falling back to the per-session container
cursor; the resolved value at call time is what we carry.) -/
structure DeltaGenerator where
  container : Option Container
  cursor : Option Cursor

/-- `msg.metadata` of a `ForwardMsg`: `parent_block.container`,
`parent_block.path`, `delta_id`, and the optional element dimension spec. -/
structure MsgMetadata where
  container : Container
  path : List Nat
  deltaId : Nat
  width : Option Int
  height : Option Int

/-- `msg.delta`, parameterised by the payload types: `Elt` for a marshalled
`new_element` proto, `Df` for the marshalled dataframe of an `add_rows`
delta.  `newElement` records under which oneof field (`delta_type`) the
element proto was copied. -/
inductive Delta (Elt Df : Type) where
  | newElement (deltaType : String) (element : Elt)
  | newBlock
  | addRowsDelta (data : Df) (name : Option String)

/-- A `ForwardMsg`: a delta plus metadata.  `metadata = none` models a proto
whose metadata fields were never set. -/
structure ForwardMsg (Elt Df : Type) where
  delta : Delta Elt Df
  metadata : Option MsgMetadata

/-- The exceptions raised by the embedded code: `StreamlitAPIException`
(with its message) and `NoSessionContext`. -/
inductive StErr where
  | api (message : String)
  | noSessionContext
deriving DecidableEq, Repr

/-- Modelled from the spec: "a message-enqueue call that hands a constructed
protocol buffer to an external per-session context"
(`streamlit/report_thread.py` is not under `src/`).  The context returned by
`get_report_ctx()` is modelled as its message queue, so `ctx.enqueue(msg)`
appends `msg`; `get_report_ctx()` returning `None` is `ctx = none`. -/
def enqueueMessage {M : Type} (ctx : Option (List M)) (msg : M) :
    Except StErr (List M) :=
  match ctx with
  | none => .error .noSessionContext
  | some q => .ok (q ++ [msg])

/-- The value returned by a marshalling method body: Python `None`, the
`NoValue` sentinel, or a real widget value. -/
inductive RetVal (Rv : Type) where
  | pyNone
  | noValue
  | value (v : Rv)

/-- What a `DeltaGenerator` call returns to the user: `None`, a widget
value, or a `DeltaGenerator`. -/
inductive CallResult (Rv : Type) where
  | pyNone
  | value (v : Rv)
  | dg (d : DeltaGenerator)

/-- `_value_or_dg(value, dg)` (delta_generator.py:3045-3061): `NoValue`
becomes `None`, `None` becomes `dg`, anything else is passed through. -/
def valueOrDg {Rv : Type} : RetVal Rv → DeltaGenerator → CallResult Rv
  | .noValue, _ => .pyNone
  | .pyNone, d => .dg d
  | .value v, _ => .value v

/-- `DeltaGenerator._enqueue_new_element_delta`
(delta_generator.py:365-426).  `marshall` is the `marshall_element`
callable, applied to the fresh `msg.delta.new_element` proto
(`emptyElement`); it yields the filled element and the method body's return
value.  The enqueue propagates `NoSessionContext` from `_enqueue_message`;
the resulting queue is returned alongside the call result. -/
def enqueueNewElementDelta {Elt Df Rv : Type}
    (lock : Cursor → Option String → Option Int → Cursor)
    (dg : DeltaGenerator) (marshall : Elt → Elt × RetVal Rv)
    (emptyElement : Elt) (deltaType : String) (lastIndex : Option Int)
    (elementWidth elementHeight : Option Int)
    (ctx : Option (List (ForwardMsg Elt Df))) :
    Except StErr (CallResult Rv × Option (List (ForwardMsg Elt Df))) :=
  let filled := marshall emptyElement
  match dg.container, dg.cursor with
  | some c, some cur =>
      let msg : ForwardMsg Elt Df :=
        { delta := .newElement deltaType filled.1
          metadata := some
            { container := c, path := cur.path, deltaId := cur.index
              width := elementWidth, height := elementHeight } }
      match enqueueMessage ctx msg with
      | .error e => .error e
      | .ok q =>
          let outputDg : DeltaGenerator :=
            { container := some c
              cursor := some (lock cur (some deltaType) lastIndex) }
          .ok (valueOrDg filled.2 outputDg, some q)
  | _, _ =>
      -- If the message was not enqueued, just return self.
      .ok (valueOrDg filled.2 dg, ctx)

/-- `DeltaGenerator._enqueue` (delta_generator.py:296-362): same pathway,
but the element proto is passed in already marshalled, together with an
explicit `return_value`. -/
def enqueue {Elt Df Rv : Type}
    (lock : Cursor → Option String → Option Int → Cursor)
    (dg : DeltaGenerator) (deltaType : String) (elementProto : Elt)
    (returnValue : RetVal Rv) (lastIndex : Option Int)
    (elementWidth elementHeight : Option Int)
    (ctx : Option (List (ForwardMsg Elt Df))) :
    Except StErr (CallResult Rv × Option (List (ForwardMsg Elt Df))) :=
  match dg.container, dg.cursor with
  | some c, some cur =>
      let msg : ForwardMsg Elt Df :=
        { delta := .newElement deltaType elementProto
          metadata := some
            { container := c, path := cur.path, deltaId := cur.index
              width := elementWidth, height := elementHeight } }
      match enqueueMessage ctx msg with
      | .error e => .error e
      | .ok q =>
          let outputDg : DeltaGenerator :=
            { container := some c
              cursor := some (lock cur (some deltaType) lastIndex) }
          .ok (valueOrDg returnValue outputDg, some q)
  | _, _ =>
      .ok (valueOrDg returnValue dg, ctx)

/-- A minimal model of a Python value where the code applies `bool(...)`
truthiness. -/
inductive Py where
  | bool (b : Bool)
  | int (z : Int)
  | str (s : String)
  | pyNone
deriving DecidableEq, Repr

/-- Python `bool(...)` on the modelled values. -/
def Py.toBool : Py → Bool
  | .bool b => b
  | .int z => z != 0
  | .str s => s != ""
  | .pyNone => false

/-- The `checkbox` proto fields set by `DeltaGenerator.checkbox`. -/
structure CheckboxProto where
  label : String
  default : Bool
deriving DecidableEq, Repr

/-- The body of `DeltaGenerator.checkbox` (delta_generator.py:1358-1393).
`uiValue` models the result of the per-session widget-state lookup
`_get_widget_ui_value("checkbox", ...)` (`streamlit/elements/utils.py` is
not under `src/`): `none` when the widget has no front-end state yet.
Returns the marshalled proto and the value returned to the script. -/
def checkbox (label : String) (value : Py) (uiValue : Option Py) :
    CheckboxProto × Bool :=
  let proto : CheckboxProto := { label := label, default := value.toBool }
  let currentValue := match uiValue with
    | some u => u
    | none => value
  (proto, currentValue.toBool)

/-- The error message chosen by `DeltaGenerator.__getattr__`'s `wrapper`
(delta_generator.py:236-263).  `isStreamlitMethod` models
`name in streamlit_methods`, the membership of `name` among the callable
top-level `streamlit` attributes (external to `src/`). -/
def getattrMessage (isStreamlitMethod : Bool) (container : Option Container)
    (name : String) : String :=
  if isStreamlitMethod then
    if container = some Container.sidebar then
      "Method `" ++ name ++ "()` does not exist for `st.sidebar`. Did you mean `st." ++ name ++ "()`?"
    else
      "Method `" ++ name ++ "()` does not exist for `DeltaGenerator` objects. Did you mean `st." ++ name ++ "()`?"
  else
    "`" ++ name ++ "()` is not a valid Streamlit command."

/-- The callable returned by `DeltaGenerator.__getattr__` for an undefined
attribute: whatever arguments it is invoked with, it raises
`StreamlitAPIException` (its body contains no enqueue and no return). -/
def getattrWrapper (isStreamlitMethod : Bool) (container : Option Container)
    (name : String) (_args : List Py) : Except StErr Unit :=
  .error (.api (getattrMessage isStreamlitMethod container name))

/-- Python `int()` truncation (toward zero) on a rational. -/
def pyTruncInt (q : Rat) : Int :=
  if 0 ≤ q then ⌊q⌋ else ⌈q⌉

/-- The argument of `DeltaGenerator.progress`: a float (modelled as a
rational), an int, or a value of some other type. -/
inductive ProgressValue where
  | float (q : Rat)
  | int (z : Int)
  | str (s : String)
  | pyNone
deriving DecidableEq, Repr

/-- The body of `DeltaGenerator.progress` (delta_generator.py:2557-2602),
returning the value stored into `element.progress.value` or the raised
`StreamlitAPIException`.  (Python `bool` passes the `isinstance(value, int)`
check; a `True`/`False` argument is the `.int 1`/`.int 0` case.) -/
def progress (value : ProgressValue) : Except StErr Int :=
  match value with
  | .float q =>
      if 0 ≤ q ∧ q ≤ 1 then
        .ok (pyTruncInt (q * 100))
      else
        .error (.api "Progress Value has invalid value [0.0, 1.0]")
  | .int z =>
      if 0 ≤ z ∧ z ≤ 100 then
        .ok z
      else
        .error (.api "Progress Value has invalid value [0, 100]")
  | .str _ => .error (.api "Progress Value has invalid type: str")
  | .pyNone => .error (.api "Progress Value has invalid type: NoneType")

/-- `DELTAS_TYPES_THAT_MELT_DATAFRAMES` (delta_generator.py:68). -/
def DELTAS_TYPES_THAT_MELT_DATAFRAMES : List String :=
  ["line_chart", "area_chart", "bar_chart"]

/-- A positional argument of a `_with_element`-wrapped method, carrying the
two attributes the decorator inspects.  `type_util` is not under `src/`:
`dfCompat` models `type_util.is_dataframe_compatible(data)` and `dfIndex`
the index of `type_util.convert_anything_to_df(data)` (so `dfIndex = []`
models `data.index.size == 0`). -/
structure PyData where
  dfCompat : Bool
  dfIndex : List Int
deriving DecidableEq, Repr

/-- A `DeltaGenerator` method of the shape `_with_element` decorates:
`method(self, element, *args)` mutates the element proto and returns the
widget value.  `name` is `method.__name__`. -/
structure Method (Elt Rv : Type) where
  name : String
  run : DeltaGenerator → Elt → List PyData → Elt × RetVal Rv

/-- The `wrapped_method` produced by the `_with_element` decorator
(delta_generator.py:92-136): compute `delta_type = method.__name__`, the
melt `last_index`, build `marshall_element`, and call
`dg._enqueue_new_element_delta`. -/
def withElement {Elt Df Rv : Type}
    (lock : Cursor → Option String → Option Int → Cursor)
    (m : Method Elt Rv) (dg : DeltaGenerator) (args : List PyData)
    (emptyElement : Elt) (ctx : Option (List (ForwardMsg Elt Df))) :
    Except StErr (CallResult Rv × Option (List (ForwardMsg Elt Df))) :=
  let deltaType := m.name
  let lastIndex : Option Int :=
    if deltaType ∈ DELTAS_TYPES_THAT_MELT_DATAFRAMES ∧ args ≠ [] then
      match args.head? with
      | some a => if a.dfCompat then a.dfIndex.getLast? else none
      | none => none
    else none
  enqueueNewElementDelta lock dg (fun e => m.run dg e args) emptyElement
    deltaType lastIndex none none ctx

/-- The `last_index` as the claim describes it, written from the claim's
words (not from the source) for comparison with `withElement`: the last
index of the first argument converted to a dataframe, when the method name
is one of `line_chart` / `area_chart` / `bar_chart` and the first argument
is dataframe-compatible and non-empty; `None` otherwise. -/
def claimedLastIndex (name : String) (args : List PyData) : Option Int :=
  match args.head? with
  | some a =>
      if name ∈ ["line_chart", "area_chart", "bar_chart"]
          ∧ a.dfCompat = true ∧ a.dfIndex ≠ [] then
        a.dfIndex.getLast?
      else none
  | none => none

/-- `_maybe_melt_data_for_add_rows` (delta_generator.py:3002-3038).  The
pandas reshaping inside the melt branch (`RangeIndex` rebasing and
`pd.melt`) is external library behaviour; it is abstracted as `reshape`
(taking the data and `last_index`, returning the reshaped data and the new
`last_index`).  Outside the melt branch the data and `last_index` pass
through unchanged. -/
def maybeMeltDataForAddRows {Df : Type}
    (reshape : Df → Option Int → Df × Option Int)
    (data : Df) (deltaType : Option String) (lastIndex : Option Int) :
    Df × Option Int :=
  match deltaType with
  | some dt =>
      if dt ∈ DELTAS_TYPES_THAT_MELT_DATAFRAMES then reshape data lastIndex
      else (data, lastIndex)
  | none => (data, lastIndex)

/-- What `add_rows` returns when it does not raise: `self`, or Python
`None` (the early-`return` of the re-dispatch branch). -/
inductive AddRowsResult where
  | selfDg (dg : DeltaGenerator)
  | pyNone

/-- `DeltaGenerator.add_rows` (delta_generator.py:2895-2999).  `kwargs`
models the keyword datasets (keys are distinct, non-empty strings).  The
re-dispatch branch (`delta_type` melts dataframes but `last_index` is
`None`) calls the original `st.<delta_type>` chart method; that method's
external marshalling is abstracted as `chartMarshall` / `chartLastIndex`,
and its observable effect is the single new-element enqueue performed by
its `_with_element` wrapper.  The in-place update of
`cursor.props["last_index"]` is not observed by any claim and is not
tracked. -/
def addRows {Elt Df : Type}
    (lock : Cursor → Option String → Option Int → Cursor)
    (reshape : Df → Option Int → Df × Option Int)
    (chartMarshall : Option Df → List (String × Df) → Elt → Elt)
    (chartLastIndex : Option Int) (emptyElement : Elt)
    (dg : DeltaGenerator) (data : Option Df) (kwargs : List (String × Df))
    (ctx : Option (List (ForwardMsg Elt Df))) :
    Except StErr (AddRowsResult × Option (List (ForwardMsg Elt Df))) :=
  match dg.container, dg.cursor with
  | some c, some cur =>
      if cur.isLocked = false then
        .error (.api "Only existing elements can `add_rows`.")
      else
        let core : String → Df →
            Except StErr (AddRowsResult × Option (List (ForwardMsg Elt Df))) :=
          fun name d =>
            if (match cur.deltaType with
                | some dt => decide (dt ∈ DELTAS_TYPES_THAT_MELT_DATAFRAMES)
                | none => false) = true
                ∧ cur.lastIndex = none then
              match enqueueNewElementDelta lock
                  { container := some c, cursor := some cur }
                  (fun e => (chartMarshall data kwargs e,
                    (RetVal.pyNone : RetVal Unit)))
                  emptyElement (cur.deltaType.getD "") chartLastIndex
                  none none ctx with
              | .error e => .error e
              | .ok r => .ok (.pyNone, r.2)
            else
              let melted := maybeMeltDataForAddRows reshape d cur.deltaType
                cur.lastIndex
              let msg : ForwardMsg Elt Df :=
                { delta := .addRowsDelta melted.1
                    (if name = "" then none else some name)
                  metadata := some
                    { container := c, path := cur.path, deltaId := cur.index
                      width := none, height := none } }
              match enqueueMessage ctx msg with
              | .error e => .error e
              | .ok q => .ok (.selfDg dg, some q)
        match data, kwargs with
        | some d, [] => core "" d
        | _, [(n, d)] => core n d
        | _, _ =>
            .error (.api
              "Wrong number of arguments to add_rows(). Command requires exactly one dataset")
  | _, _ => .ok (.selfDg dg, ctx)

/-- The `Slider.DataType` proto enum (the proto file is external to
`src/`). -/
inductive SliderDataType where
  | int
  | float
  | datetime
  | date
  | time
deriving DecidableEq, Repr

/-- The slider proto fields set by both marshalling routines, for an
int-typed call (all numeric fields are Python ints serialised as longs). -/
structure SliderProto where
  label : String
  format : String
  default : List Int
  min : Int
  max : Int
  step : Int
  dataType : SliderDataType
deriving DecidableEq, Repr

/-- The `value` argument of an int-typed slider call: `None`, a single int,
or a list/tuple of ints. -/
inductive SliderValue where
  | noneV
  | single (v : Int)
  | listV (l : List Int)
deriving DecidableEq, Repr

/-- The value-defaulting step shared by both slider marshalling routines
(delta_generator.py:1699-1700, slider.py:100-102):
`value = min_value if min_value is not None else 0` when `value is None`. -/
def sliderValueAfterDefault (minValue : Option Int) (value : SliderValue) :
    SliderValue :=
  match value with
  | .noneV => .single (minValue.getD 0)
  | v => v

/-- `single_value`: `isinstance(value, tuple(SUPPORTED_TYPES.keys()))` for
an int-typed value. -/
def SliderValue.isSingle : SliderValue → Bool
  | .single _ => true
  | _ => false

/-- `range_value`: `isinstance(value, (list, tuple)) and len(value) in
(0, 1, 2)`. -/
def SliderValue.isRange : SliderValue → Bool
  | .listV l => decide (l.length ≤ 2)
  | _ => false

/-- The "always make value a list" step (delta_generator.py:1721-1722,
slider.py:113-115). -/
def SliderValue.toList : SliderValue → List Int
  | .single v => [v]
  | .listV l => l
  | .noneV => []

/-- The range validation of the standalone `marshall_proto`
(slider.py:184-202): raise when the default lies outside
`[min_value, max_value]` (or a pair is not ordered within the bounds); an
empty list falls back to the outer bounds. -/
def sliderRangeCheck (minv maxv : Int) (vlist : List Int) :
    Except StErr (List Int) :=
  match vlist with
  | [v] =>
      if minv ≤ v ∧ v ≤ maxv then .ok [v]
      else .error (.api
        "The default `value` must lie between the `min_value` and the `max_value`, inclusively.")
  | [a, b] =>
      if minv ≤ a ∧ a ≤ b ∧ b ≤ maxv then .ok [a, b]
      else .error (.api
        "The value and/or arguments are out of range. Expected: min_value <= start <= end <= max_value")
  | _ => .ok [minv, maxv]

/-- The bounds-adjustment step of `DeltaGenerator.slider`
(delta_generator.py:1831-1847), stated for any linearly ordered value type
(the source lines are type-agnostic; ints, floats, and the timelike types
all pass through them).  Returns the adjusted `(value, min_value,
max_value)`.  The sequential reassignment of line 1833 (`max` taken
against the already-updated `min_value`) is kept as written. -/
def adjustBounds {α : Type} [LinearOrder α]
    (value : List α) (minValue maxValue : α) : List α × α × α :=
  let minValue1 := min minValue maxValue
  let maxValue1 := max minValue1 maxValue
  match value with
  | [v] => ([v], min v minValue1, max v maxValue1)
  | [a, b] =>
      let se := if a > b then (b, a) else (a, b)
      ([se.1, se.2], min se.1 minValue1, max se.2 maxValue1)
  | _ => ([minValue1, maxValue1], minValue1, maxValue1)

/-- The marshalling logic inlined in `DeltaGenerator.slider`
(delta_generator.py:1608-1933), instantiated at int-typed inputs (the
claims under check restrict to ints; the `all_same_type` /
`int_args` / `all_ints` checks of lines 1724-1829 always pass there, and
`data_type = Slider.INT`).  `jsOk` abstracts the external
`JSNumber.validate_int_bounds` (`streamlit/js_number.py` is not under
`src/`); both slider embeddings share it.  Returns the marshalled proto;
the widget-state lookup after line 1933 is outside the marshalling. -/
def sliderIntDG (jsOk : Int → Bool) (label : String)
    (minValue maxValue : Option Int) (value : SliderValue)
    (step : Option Int) (format : Option String) :
    Except StErr SliderProto :=
  -- Set value default (lines 1699-1700).
  let value0 := sliderValueAfterDefault minValue value
  -- Shape check (lines 1712-1718): raise unless single or range.
  if value0.isSingle = true ∨ value0.isRange = true then
    -- Always make value a list (lines 1721-1722).
    let vlist := value0.toList
    -- Defaults (lines 1747-1787); INT row of the DEFAULTS table.
    let minv := minValue.getD 0
    let maxv := maxValue.getD 100
    let stp := step.getD 1
    let fmt := format.getD "%d"
    -- Bounds adjustment (lines 1831-1847).
    let adjusted := adjustBounds vlist minv maxv
    -- JSNumber bounds checks (lines 1853-1864): raise unless both pass.
    if jsOk adjusted.2.1 = true ∧ jsOk adjusted.2.2 = true then
      -- Proto fill (lines 1927-1933).
      .ok { label := label, format := fmt, default := adjusted.1
            min := adjusted.2.1, max := adjusted.2.2, step := stp
            dataType := .int }
    else
      .error (.api "JSNumber bounds exception on min_value or max_value")
  else
    .error (.api
      "Slider value should either be an int/float/datetime or a list/tuple of 0 to 2 ints/floats/datetimes")

/-- The standalone `marshall_proto` (elements/slider.py:93-265),
instantiated at int-typed inputs like `sliderIntDG` and sharing the same
`jsOk` abstraction of `JSNumber.validate_int_bounds`.  Where
`DeltaGenerator.slider` adjusts the bounds, this routine validates
`min_value <= value <= max_value` and raises (`sliderRangeCheck`,
lines 184-202).  Returns the proto together with the final value list and
`range_value`, mirroring the return tuple of the source (`orig_tz` is always
`None` for ints). -/
def marshallProtoInt (jsOk : Int → Bool) (label : String)
    (minValue maxValue : Option Int) (value : SliderValue)
    (step : Option Int) (format : Option String) :
    Except StErr (SliderProto × List Int × Bool) :=
  -- Set value default (lines 100-102).
  let value0 := sliderValueAfterDefault minValue value
  -- Shape check (lines 104-111): raise unless single or range.
  if value0.isSingle = true ∨ value0.isRange = true then
    -- Always make value a range (lines 113-115).
    let vlist := value0.toList
    -- Defaults (lines 128-140); INT row of `get_defaults`.
    let minv := minValue.getD 0
    let maxv := maxValue.getD 100
    let stp := step.getD 1
    let fmt := format.getD "%d"
    -- Range validation (lines 184-202): raise instead of adjusting.
    match sliderRangeCheck minv maxv vlist with
    | .error e => .error e
    | .ok dflt =>
        -- JSNumber bounds checks (lines 204-219): raise unless both pass.
        if jsOk minv = true ∧ jsOk maxv = true then
          -- Proto fill and return tuple (lines 257-265).
          .ok ({ label := label, format := fmt, default := dflt
                 min := minv, max := maxv, step := stp
                 dataType := .int }, dflt, value0.isRange)
        else
          .error (.api "JSNumber bounds exception on min_value or max_value")
  else
    .error (.api
      "Slider value should either be an int/float/datetime or a list/tuple of 0 to 2 ints/floats/datetimes")

/-- `SECONDS_TO_MICROS` (slider.py:66). -/
def SECONDS_TO_MICROS : Int := 1000 * 1000

/-- `DAYS_TO_MICROS` (slider.py:67). -/
def DAYS_TO_MICROS : Int := 24 * 60 * 60 * SECONDS_TO_MICROS

/-- A Python `timedelta` as its normalized components (`0 <= microseconds <
10^6`, `0 <= seconds < 86400`, `days` of either sign). -/
structure Timedelta where
  days : Int
  seconds : Int
  microseconds : Int
deriving DecidableEq, Repr

/-- Python's `timedelta` normalization of a total number of microseconds
(floor division semantics, so `microseconds` and `seconds` are
non-negative). -/
def Timedelta.ofMicros (t : Int) : Timedelta :=
  let rest := t.fdiv 1000000
  { days := rest.fdiv 86400
    seconds := rest.fmod 86400
    microseconds := t.fmod 1000000 }

/-- `_delta_to_micros` (slider.py:70-75). -/
def deltaToMicros (d : Timedelta) : Int :=
  d.microseconds + d.seconds * SECONDS_TO_MICROS + d.days * DAYS_TO_MICROS

/-- A timezone-aware Python `datetime` whose `tzinfo` is a fixed-offset
timezone: `wallMicros` is the wall-clock reading as microseconds from the
epoch's wall clock, `offsetMicros` the timezone's fixed `utcoffset` in
microseconds.  (Python datetimes have microsecond resolution, so this is
exact.) -/
structure AwareDatetime where
  wallMicros : Int
  offsetMicros : Int
deriving DecidableEq, Repr

/-- The UTC instant a fixed-offset aware datetime denotes, in microseconds
since the epoch. -/
def AwareDatetime.instant (d : AwareDatetime) : Int :=
  d.wallMicros - d.offsetMicros

/-- `dt.astimezone(tz)` for fixed-offset timezones: same instant, wall
clock re-expressed in the target offset. -/
def astimezone (d : AwareDatetime) (tz : Int) : AwareDatetime :=
  { wallMicros := d.instant + tz, offsetMicros := tz }

/-- Subtraction of aware datetimes: the `timedelta` of their instant
difference. -/
def datetimeSub (a b : AwareDatetime) : Timedelta :=
  Timedelta.ofMicros (a.instant - b.instant)

/-- `datetime + timedelta(microseconds=m)`: shifts the wall clock, keeps
the tzinfo. -/
def datetimeAddMicros (d : AwareDatetime) (m : Int) : AwareDatetime :=
  { wallMicros := d.wallMicros + m, offsetMicros := d.offsetMicros }

/-- `dt.replace(tzinfo=tz)`: wall clock kept, tzinfo replaced. -/
def replaceTz (d : AwareDatetime) (tz : Int) : AwareDatetime :=
  { wallMicros := d.wallMicros, offsetMicros := tz }

/-- `UTC_EPOCH` (slider.py:78): `datetime(1970, 1, 1, tzinfo=timezone.utc)`. -/
def UTC_EPOCH : AwareDatetime := { wallMicros := 0, offsetMicros := 0 }

/-- `_datetime_to_micros` (slider.py:81-84). -/
def datetimeToMicros (dt : AwareDatetime) : Int :=
  deltaToMicros (datetimeSub (astimezone dt 0) UTC_EPOCH)

/-- `_micros_to_datetime` (slider.py:87-90), for an aware (fixed-offset)
original timezone. -/
def microsToDatetime (micros : Int) (origTz : Int) : AwareDatetime :=
  replaceTz (astimezone (datetimeAddMicros UTC_EPOCH micros) origTz) origTz

end Streamlit

namespace Streamlit

/-- C3: for every `ForwardMsg`, `_enqueue_message` raises `NoSessionContext`
exactly when `get_report_ctx()` returns `None`; otherwise it enqueues the
message on the per-session context exactly once (the context's queue grows
by exactly `[msg]`). -/
theorem enqueue_message_spec {M : Type} (msg : M)
    (ctx : Option (List M)) (q : List M) :
    enqueueMessage (none : Option (List M)) msg = .error .noSessionContext
    ∧ enqueueMessage (some q) msg = .ok (q ++ [msg])
    ∧ (enqueueMessage ctx msg = .error .noSessionContext ↔ ctx = none) := by
  refine ⟨rfl, rfl, ?_⟩
  cases ctx <;> simp [enqueueMessage]

/-- C8: `DeltaGenerator.checkbox` marshalls `label` and `default =
bool(value)` into the checkbox proto, and returns `bool(ui_value)` when the
per-session widget-state lookup yields a non-`None` value, else
`bool(value)`: front-end state from a previous rerun takes precedence over
the script default. -/
theorem checkbox_spec (label : String) (value : Py) (uiValue : Option Py) :
    (checkbox label value uiValue).1.label = label
    ∧ (checkbox label value uiValue).1.default = value.toBool
    ∧ (∀ u, uiValue = some u → (checkbox label value uiValue).2 = u.toBool)
    ∧ (uiValue = none → (checkbox label value uiValue).2 = value.toBool) := by
  refine ⟨rfl, rfl, ?_, ?_⟩
  · intro u hu; subst hu; rfl
  · intro hu; subst hu; rfl

/-- Witness for `checkbox_spec` at a concrete input. -/
theorem checkbox_spec_witness :
    (checkbox "agree" (Py.bool false) (some (Py.bool true))).2 = true :=
  (checkbox_spec "agree" (Py.bool false) (some (Py.bool true))).2.2.1
    (Py.bool true) rfl

/-- C9: for an attribute `name` undefined on `DeltaGenerator`, `__getattr__`
returns a callable, and calling it with any arguments raises
`StreamlitAPIException` with a message determined by whether `name` is a
known top-level streamlit method, and, if so, whether the container is the
sidebar; no message is ever enqueued (the wrapper body contains no enqueue
and no normal return). -/
theorem getattr_spec (isStreamlitMethod : Bool) (container : Option Container)
    (name : String) (args : List Py) :
    getattrWrapper isStreamlitMethod container name args
      = .error (.api (getattrMessage isStreamlitMethod container name))
    ∧ (∀ r, getattrWrapper isStreamlitMethod container name args ≠ .ok r)
    ∧ (isStreamlitMethod = true → container = some Container.sidebar →
        getattrMessage isStreamlitMethod container name
          = "Method `" ++ name ++ "()` does not exist for `st.sidebar`. Did you mean `st." ++ name ++ "()`?")
    ∧ (isStreamlitMethod = true → container ≠ some Container.sidebar →
        getattrMessage isStreamlitMethod container name
          = "Method `" ++ name ++ "()` does not exist for `DeltaGenerator` objects. Did you mean `st." ++ name ++ "()`?")
    ∧ (isStreamlitMethod = false →
        getattrMessage isStreamlitMethod container name
          = "`" ++ name ++ "()` is not a valid Streamlit command.") := by
  refine ⟨rfl, ?_, ?_, ?_, ?_⟩
  · intro r h; exact Except.noConfusion h
  · intro hm hc; subst hm; subst hc; simp [getattrMessage]
  · intro hm hc; subst hm; simp [getattrMessage, hc]
  · intro hm; subst hm; simp [getattrMessage]

/-- Witness for `getattr_spec` at a concrete input. -/
theorem getattr_spec_witness :
    getattrMessage false (some Container.main) "foobar"
      = "`" ++ "foobar" ++ "()` is not a valid Streamlit command." :=
  (getattr_spec false (some Container.main) "foobar" []).2.2.2.2 rfl

/-- C6: `DeltaGenerator.progress` accepts a float only in `[0.0, 1.0]`
(storing `int(value * 100)`), an int only in `[0, 100]` (storing it
unchanged), and raises `StreamlitAPIException` otherwise, including for
every value of non-numeric type. -/
theorem progress_spec :
    (∀ q : Rat, 0 ≤ q → q ≤ 1 →
        progress (.float q) = .ok (pyTruncInt (q * 100)))
    ∧ (∀ q : Rat, ¬(0 ≤ q ∧ q ≤ 1) →
        ∃ m, progress (.float q) = .error (.api m))
    ∧ (∀ z : Int, 0 ≤ z → z ≤ 100 → progress (.int z) = .ok z)
    ∧ (∀ z : Int, ¬(0 ≤ z ∧ z ≤ 100) →
        ∃ m, progress (.int z) = .error (.api m))
    ∧ (∀ s, ∃ m, progress (.str s) = .error (.api m))
    ∧ (∃ m, progress .pyNone = .error (.api m)) := by
  refine ⟨?_, ?_, ?_, ?_, ?_, ?_⟩
  · intro q h0 h1; simp [progress, h0, h1]
  · intro q h
    exact ⟨"Progress Value has invalid value [0.0, 1.0]", by simp [progress, h]⟩
  · intro z h0 h1; simp [progress, h0, h1]
  · intro z h
    exact ⟨"Progress Value has invalid value [0, 100]", by simp [progress, h]⟩
  · intro s; exact ⟨_, rfl⟩
  · exact ⟨_, rfl⟩

/-- Witness for `progress_spec` at concrete inputs. -/
theorem progress_spec_witness :
    progress (.float ((1 : Rat) / 2)) = .ok (pyTruncInt ((1 : Rat) / 2 * 100))
    ∧ progress (.int 42) = .ok 42 := by
  constructor
  · exact progress_spec.1 ((1 : Rat) / 2) (by norm_num) (by norm_num)
  · exact progress_spec.2.2.1 42 (by norm_num) (by norm_num)

/-- C1: for `_enqueue_new_element_delta` and `_enqueue`: when both
`self._container` and `self._cursor` are non-null (and a session context
exists), exactly one `ForwardMsg` is enqueued, its metadata carrying
`parent_block.container = self._container`, `parent_block.path` = the
cursor's path and `delta_id` = the cursor's index, and the fallback
`DeltaGenerator` is a new one whose cursor is the locked cursor at that
position; when either is null, nothing is enqueued and `self` is the
fallback. -/
theorem enqueue_new_element_delta_spec {Elt Df Rv : Type}
    (lock : Cursor → Option String → Option Int → Cursor)
    (dg : DeltaGenerator) (marshall : Elt → Elt × RetVal Rv)
    (emptyElement : Elt) (deltaType : String) (lastIndex wd ht : Option Int)
    (q : List (ForwardMsg Elt Df)) (c : Container) (cur : Cursor)
    (elementProto : Elt) (returnValue : RetVal Rv) :
    (dg.container = some c → dg.cursor = some cur →
      enqueueNewElementDelta lock dg marshall emptyElement deltaType
          lastIndex wd ht (some q)
        = .ok (valueOrDg (marshall emptyElement).2
            { container := some c
              cursor := some (lock cur (some deltaType) lastIndex) },
            some (q ++ [{ delta := .newElement deltaType (marshall emptyElement).1
                          metadata := some { container := c, path := cur.path
                                             deltaId := cur.index
                                             width := wd, height := ht } }])))
    ∧ (∀ ctx : Option (List (ForwardMsg Elt Df)),
        (dg.container = none ∨ dg.cursor = none) →
        enqueueNewElementDelta lock dg marshall emptyElement deltaType
            lastIndex wd ht ctx
          = .ok (valueOrDg (marshall emptyElement).2 dg, ctx))
    ∧ (dg.container = some c → dg.cursor = some cur →
        enqueue lock dg deltaType elementProto returnValue
            lastIndex wd ht (some q)
          = .ok (valueOrDg returnValue
              { container := some c
                cursor := some (lock cur (some deltaType) lastIndex) },
              some (q ++ [{ delta := .newElement deltaType elementProto
                            metadata := some { container := c, path := cur.path
                                               deltaId := cur.index
                                               width := wd, height := ht } }])))
    ∧ (∀ ctx : Option (List (ForwardMsg Elt Df)),
        (dg.container = none ∨ dg.cursor = none) →
        enqueue lock dg deltaType elementProto returnValue
            lastIndex wd ht ctx
          = .ok (valueOrDg returnValue dg, ctx)) := by
  obtain ⟨co, cu⟩ := dg
  refine ⟨?_, ?_, ?_, ?_⟩
  · intro hc hcur
    simp only at hc hcur
    subst hc; subst hcur
    simp [enqueueNewElementDelta, enqueueMessage]
  · intro ctx hnull
    rcases hnull with hn | hn
    · simp only at hn
      subst hn
      cases cu <;> simp [enqueueNewElementDelta, enqueueMessage]
    · simp only at hn
      subst hn
      cases co <;> simp [enqueueNewElementDelta, enqueueMessage]
  · intro hc hcur
    simp only at hc hcur
    subst hc; subst hcur
    simp [enqueue, enqueueMessage]
  · intro ctx hnull
    rcases hnull with hn | hn
    · simp only at hn
      subst hn
      cases cu <;> simp [enqueue, enqueueMessage]
    · simp only at hn
      subst hn
      cases co <;> simp [enqueue, enqueueMessage]

/-- Witness for `enqueue_new_element_delta_spec` at a concrete input. -/
theorem enqueue_new_element_delta_spec_witness :
    @enqueueNewElementDelta Unit Unit Unit
        (fun cu _ _ => cu)
        { container := some .main
          cursor := some { path := [1], index := 2, isLocked := false
                           deltaType := none, lastIndex := none } }
        (fun e => (e, .pyNone)) () "text" none none none (some [])
      = .ok (.dg { container := some .main
                   cursor := some { path := [1], index := 2, isLocked := false
                                    deltaType := none, lastIndex := none } },
             some [{ delta := .newElement "text" ()
                     metadata := some { container := .main, path := [1]
                                        deltaId := 2
                                        width := none, height := none } }]) := by
  have h := (@enqueue_new_element_delta_spec Unit Unit Unit
    (fun cu _ _ => cu)
    { container := some .main
      cursor := some { path := [1], index := 2, isLocked := false
                       deltaType := none, lastIndex := none } }
    (fun e => (e, .pyNone)) () "text" none none none [] .main
    { path := [1], index := 2, isLocked := false
      deltaType := none, lastIndex := none } () .pyNone).1 rfl rfl
  simpa using h

/-- C2: a `_with_element`-wrapped method invokes
`dg._enqueue_new_element_delta(marshall_element, delta_type, last_index)`
with `delta_type = method.__name__`, `marshall_element` running the method
body on the new element proto, and `last_index` exactly as the claim
describes it (`claimedLastIndex`). -/
theorem with_element_spec {Elt Df Rv : Type}
    (lock : Cursor → Option String → Option Int → Cursor)
    (m : Method Elt Rv) (dg : DeltaGenerator) (args : List PyData)
    (emptyElement : Elt) (ctx : Option (List (ForwardMsg Elt Df))) :
    withElement lock m dg args emptyElement ctx
      = enqueueNewElementDelta lock dg (fun e => m.run dg e args)
          emptyElement m.name (claimedLastIndex m.name args) none none ctx := by
  have h : (if m.name ∈ DELTAS_TYPES_THAT_MELT_DATAFRAMES ∧ args ≠ [] then
        match args.head? with
        | some a => if a.dfCompat then a.dfIndex.getLast? else none
        | none => none
      else none) = claimedLastIndex m.name args := by
    cases args with
    | nil => simp [claimedLastIndex]
    | cons a rest =>
        simp only [claimedLastIndex, List.head?,
          DELTAS_TYPES_THAT_MELT_DATAFRAMES]
        by_cases hmem :
            m.name ∈ (["line_chart", "area_chart", "bar_chart"] : List String)
        · by_cases hdf : a.dfCompat = true
          · cases hIdx : a.dfIndex with
            | nil => simp [hmem, hdf, hIdx]
            | cons x xs => simp [hmem, hdf, hIdx]
          · simp [hmem, hdf]
        · simp [hmem]
  simp only [withElement]
  rw [h]

/-- C7: when container and cursor are non-null (in a live session),
`add_rows` raises `StreamlitAPIException` exactly when the cursor is not
locked, or no dataset is supplied, or two or more keyword datasets are
supplied; when container or cursor is null it returns `self` without
raising or enqueuing. -/
theorem add_rows_spec {Elt Df : Type}
    (lock : Cursor → Option String → Option Int → Cursor)
    (reshape : Df → Option Int → Df × Option Int)
    (chartMarshall : Option Df → List (String × Df) → Elt → Elt)
    (chartLastIndex : Option Int) (emptyElement : Elt)
    (dg : DeltaGenerator) (data : Option Df) (kwargs : List (String × Df))
    (c : Container) (cur : Cursor) (q : List (ForwardMsg Elt Df))
    (hc : dg.container = some c) (hcur : dg.cursor = some cur) :
    ((∃ m, addRows lock reshape chartMarshall chartLastIndex emptyElement
        dg data kwargs (some q) = .error (.api m))
      ↔ (cur.isLocked = false ∨ (data = none ∧ kwargs = [])
          ∨ 2 ≤ kwargs.length))
    ∧ (∀ (dg2 : DeltaGenerator) (ctx : Option (List (ForwardMsg Elt Df))),
        (dg2.container = none ∨ dg2.cursor = none) →
        addRows lock reshape chartMarshall chartLastIndex emptyElement
          dg2 data kwargs ctx = .ok (.selfDg dg2, ctx)) := by
  constructor
  · obtain ⟨co, cu⟩ := dg
    simp only at hc hcur
    subst hc; subst hcur
    cases hL : cur.isLocked with
    | false =>
        constructor
        · intro _
          exact Or.inl rfl
        · intro _
          refine ⟨"Only existing elements can `add_rows`.", ?_⟩
          simp [addRows, hL]
    | true =>
        rcases data with _ | d <;> rcases kwargs with _ | ⟨⟨n, d2⟩, rest⟩
        · constructor
          · intro _
            exact Or.inr (Or.inl ⟨rfl, rfl⟩)
          · intro _
            refine ⟨"Wrong number of arguments to add_rows(). Command requires exactly one dataset", ?_⟩
            simp [addRows, hL]
        · cases rest with
          | nil =>
              constructor
              · intro hex
                obtain ⟨msg, hmsg⟩ := hex
                exfalso
                simp [addRows, hL] at hmsg
                by_cases hMelt : ((match cur.deltaType with
                    | some dt =>
                        decide (dt ∈ DELTAS_TYPES_THAT_MELT_DATAFRAMES)
                    | none => false) = true ∧ cur.lastIndex = none)
                · simp [hMelt, enqueueNewElementDelta, enqueueMessage] at hmsg
                · simp [hMelt, enqueueMessage] at hmsg
              · intro hcond
                exfalso
                rcases hcond with hcond | ⟨_, hcond⟩ | hcond
                · exact Bool.noConfusion hcond
                · exact List.noConfusion hcond
                · simp at hcond
          | cons p2 rest2 =>
              constructor
              · intro _
                refine Or.inr (Or.inr ?_)
                simp only [List.length_cons]
                omega
              · intro _
                refine ⟨"Wrong number of arguments to add_rows(). Command requires exactly one dataset", ?_⟩
                simp [addRows, hL]
        · constructor
          · intro hex
            obtain ⟨msg, hmsg⟩ := hex
            exfalso
            simp [addRows, hL] at hmsg
            by_cases hMelt : ((match cur.deltaType with
                | some dt =>
                    decide (dt ∈ DELTAS_TYPES_THAT_MELT_DATAFRAMES)
                | none => false) = true ∧ cur.lastIndex = none)
            · simp [hMelt, enqueueNewElementDelta, enqueueMessage] at hmsg
            · simp [hMelt, enqueueMessage] at hmsg
          · intro hcond
            exfalso
            rcases hcond with hcond | ⟨hcond, _⟩ | hcond
            · exact Bool.noConfusion hcond
            · exact Option.noConfusion hcond
            · simp at hcond
        · cases rest with
          | nil =>
              constructor
              · intro hex
                obtain ⟨msg, hmsg⟩ := hex
                exfalso
                simp [addRows, hL] at hmsg
                by_cases hMelt : ((match cur.deltaType with
                    | some dt =>
                        decide (dt ∈ DELTAS_TYPES_THAT_MELT_DATAFRAMES)
                    | none => false) = true ∧ cur.lastIndex = none)
                · simp [hMelt, enqueueNewElementDelta, enqueueMessage] at hmsg
                · simp [hMelt, enqueueMessage] at hmsg
              · intro hcond
                exfalso
                rcases hcond with hcond | ⟨hcond, _⟩ | hcond
                · exact Bool.noConfusion hcond
                · exact Option.noConfusion hcond
                · simp at hcond
          | cons p2 rest2 =>
              constructor
              · intro _
                refine Or.inr (Or.inr ?_)
                simp only [List.length_cons]
                omega
              · intro _
                refine ⟨"Wrong number of arguments to add_rows(). Command requires exactly one dataset", ?_⟩
                simp [addRows, hL]
  · intro dg2 ctx hnull
    obtain ⟨co2, cu2⟩ := dg2
    rcases hnull with hn | hn
    · simp only at hn
      subst hn
      cases cu2 <;> simp [addRows]
    · simp only at hn
      subst hn
      cases co2 <;> simp [addRows]

/-- Witness for `add_rows_spec` at a concrete input (unlocked cursor:
the call raises `StreamlitAPIException`). -/
theorem add_rows_spec_witness :
    ∃ m, @addRows Unit Unit (fun cu _ _ => cu)
        (fun d li => (d, li)) (fun _ _ e => e) none ()
        { container := some .main
          cursor := some { path := [], index := 0, isLocked := false
                           deltaType := none, lastIndex := none } }
        (some ()) [] (some [])
      = .error (.api m) :=
  (@add_rows_spec Unit Unit (fun cu _ _ => cu)
    (fun d li => (d, li)) (fun _ _ e => e) none ()
    { container := some .main
      cursor := some { path := [], index := 0, isLocked := false
                       deltaType := none, lastIndex := none } }
    (some ()) [] .main
    { path := [], index := 0, isLocked := false
      deltaType := none, lastIndex := none } [] rfl rfl).1.mpr (Or.inl rfl)

/-- The bounds-adjustment step of `DeltaGenerator.slider` establishes
`min ≤ d ≤ max` for every adjusted default `d` and `min ≤ max`, for any
linearly ordered value type. -/
theorem adjustBounds_spec {α : Type} [LinearOrder α]
    (value : List α) (minValue maxValue : α) :
    (adjustBounds value minValue maxValue).2.1
        ≤ (adjustBounds value minValue maxValue).2.2
    ∧ ∀ d ∈ (adjustBounds value minValue maxValue).1,
        (adjustBounds value minValue maxValue).2.1 ≤ d
        ∧ d ≤ (adjustBounds value minValue maxValue).2.2 := by
  rcases value with _ | ⟨a, _ | ⟨b, _ | ⟨x, rest⟩⟩⟩
  · simp only [adjustBounds]
    refine ⟨le_max_left _ _, ?_⟩
    intro d hd
    simp only [List.mem_cons, List.mem_singleton, List.not_mem_nil,
      or_false] at hd
    rcases hd with rfl | rfl
    · exact ⟨le_refl _, le_max_left _ _⟩
    · exact ⟨le_max_left _ _, le_refl _⟩
  · simp only [adjustBounds]
    refine ⟨le_trans (min_le_left _ _) (le_max_left _ _), ?_⟩
    intro d hd
    simp only [List.mem_singleton] at hd
    subst hd
    exact ⟨min_le_left _ _, le_max_left _ _⟩
  · simp only [adjustBounds]
    by_cases hab : a > b
    · simp only [if_pos hab]
      have hba : b ≤ a := le_of_lt hab
      refine ⟨le_trans (min_le_left _ _) (le_trans hba (le_max_left _ _)), ?_⟩
      intro d hd
      simp only [List.mem_cons, List.mem_singleton, List.not_mem_nil,
        or_false] at hd
      rcases hd with rfl | rfl
      · exact ⟨min_le_left _ _, le_trans hba (le_max_left _ _)⟩
      · exact ⟨le_trans (min_le_left _ _) hba, le_max_left _ _⟩
    · simp only [if_neg hab]
      have hba : a ≤ b := le_of_not_lt hab
      refine ⟨le_trans (min_le_left _ _) (le_trans hba (le_max_left _ _)), ?_⟩
      intro d hd
      simp only [List.mem_cons, List.mem_singleton, List.not_mem_nil,
        or_false] at hd
      rcases hd with rfl | rfl
      · exact ⟨min_le_left _ _, le_trans hba (le_max_left _ _)⟩
      · exact ⟨le_trans (min_le_left _ _) hba, le_max_left _ _⟩
  · simp only [adjustBounds]
    refine ⟨le_max_left _ _, ?_⟩
    intro d hd
    simp only [List.mem_cons, List.mem_singleton, List.not_mem_nil,
      or_false] at hd
    rcases hd with rfl | rfl
    · exact ⟨le_refl _, le_max_left _ _⟩
    · exact ⟨le_max_left _ _, le_refl _⟩

/-- C5: whenever the int-typed `DeltaGenerator.slider` marshalling returns
without raising, the marshalled proto satisfies `min ≤ d ≤ max` for every
default entry `d` and `min ≤ max` — for every input, including defaults
outside the user-supplied bounds. -/
theorem slider_proto_bounds_invariant (jsOk : Int → Bool) (label : String)
    (minValue maxValue : Option Int) (value : SliderValue)
    (step : Option Int) (format : Option String) (p : SliderProto)
    (h : sliderIntDG jsOk label minValue maxValue value step format = .ok p) :
    (∀ d ∈ p.default, p.min ≤ d ∧ d ≤ p.max) ∧ p.min ≤ p.max := by
  simp only [sliderIntDG] at h
  split_ifs at h with h1 h2
  · simp only [Except.ok.injEq] at h
    subst h
    exact ⟨(adjustBounds_spec _ _ _).2, (adjustBounds_spec _ _ _).1⟩


/-- Witness for `slider_proto_bounds_invariant` at a concrete input with
the default outside the supplied bounds. -/
theorem slider_proto_bounds_invariant_witness :
    (∀ d ∈ ({ label := "s", format := "%d", default := [20], min := 0
              max := 20, step := 1, dataType := .int } : SliderProto).default,
        ({ label := "s", format := "%d", default := [20], min := 0
           max := 20, step := 1, dataType := .int } : SliderProto).min ≤ d
        ∧ d ≤ ({ label := "s", format := "%d", default := [20], min := 0
                 max := 20, step := 1, dataType := .int } : SliderProto).max)
    ∧ ({ label := "s", format := "%d", default := [20], min := 0
         max := 20, step := 1, dataType := .int } : SliderProto).min
        ≤ ({ label := "s", format := "%d", default := [20], min := 0
             max := 20, step := 1, dataType := .int } : SliderProto).max :=
  slider_proto_bounds_invariant (fun _ => true) "s" (some 0) (some 10)
    (.single 20) (some 1) (some "%d")
    { label := "s", format := "%d", default := [20], min := 0
      max := 20, step := 1, dataType := .int } rfl

/-- C4 counterexample: at `label="x", min_value=0, max_value=10, value=20,
step=1, format="%d"` the standalone `marshall_proto` raises
`StreamlitAPIException` while the logic inlined in
`DeltaGenerator.slider` succeeds (widening the bounds), so the two do NOT
raise on exactly the same inputs. -/
theorem slider_marshall_equiv_counterexample :
    marshallProtoInt (fun _ => true) "x" (some 0) (some 10) (.single 20)
        (some 1) (some "%d")
      = .error (.api
        "The default `value` must lie between the `min_value` and the `max_value`, inclusively.")
    ∧ sliderIntDG (fun _ => true) "x" (some 0) (some 10) (.single 20)
        (some 1) (some "%d")
      = .ok { label := "x", format := "%d", default := [20], min := 0
              max := 20, step := 1, dataType := .int } :=
  ⟨rfl, rfl⟩

/-- C4 (amended): on int-typed inputs, whenever the standalone
`marshall_proto` succeeds, the logic inlined in `DeltaGenerator.slider`
also succeeds and sets identical slider proto fields (so the two agree on
every input where both succeed); they do not, however, raise on exactly
the same inputs — `marshall_proto` raises on defaults outside
`[min_value, max_value]` where the inlined logic adjusts the bounds and
succeeds (see the counterexample). -/
theorem slider_marshall_refinement (jsOk : Int → Bool) (label : String)
    (m M v s : Int) (f : String) (out : SliderProto × List Int × Bool)
    (h : marshallProtoInt jsOk label (some m) (some M) (.single v) (some s)
        (some f) = .ok out) :
    sliderIntDG jsOk label (some m) (some M) (.single v) (some s) (some f)
        = .ok out.1
    ∧ ∀ p, sliderIntDG jsOk label (some m) (some M) (.single v) (some s)
        (some f) = .ok p → p = out.1 := by
  simp [marshallProtoInt, sliderValueAfterDefault, SliderValue.isSingle,
    SliderValue.isRange, SliderValue.toList, sliderRangeCheck] at h
  by_cases hmv : m ≤ v ∧ v ≤ M
  · rw [if_pos hmv] at h
    dsimp only at h
    by_cases hjs : jsOk m = true ∧ jsOk M = true
    · rw [if_pos hjs] at h
      simp only [Except.ok.injEq] at h
      subst h
      have hmM : m ≤ M := le_trans hmv.1 hmv.2
      have hds : sliderIntDG jsOk label (some m) (some M) (.single v)
          (some s) (some f)
          = .ok { label := label, format := f, default := [v], min := m
                  max := M, step := s, dataType := .int } := by
        simp [sliderIntDG, sliderValueAfterDefault, SliderValue.isSingle,
          SliderValue.isRange, SliderValue.toList, adjustBounds,
          min_eq_left hmM, max_eq_right hmM, min_eq_right hmv.1,
          max_eq_right hmv.2, hjs.1, hjs.2]
      refine ⟨by simpa using hds, ?_⟩
      intro p hp
      rw [hds] at hp
      simpa using hp.symm
    · rw [if_neg hjs] at h
      exact absurd h (by simp)
  · rw [if_neg hmv] at h
    simp at h

/-- Witness for `slider_marshall_refinement` at a concrete in-bounds
input. -/
theorem slider_marshall_refinement_witness :
    sliderIntDG (fun _ => true) "y" (some 0) (some 10) (.single 5) (some 1)
        (some "%d")
      = .ok ({ label := "y", format := "%d", default := [5], min := 0
               max := 10, step := 1, dataType := .int } : SliderProto) :=
  (slider_marshall_refinement (fun _ => true) "y" 0 10 5 1 "%d"
    ({ label := "y", format := "%d", default := [5], min := 0
       max := 10, step := 1, dataType := .int }, [5], false) rfl).1

/-- Reconstructing a Python `timedelta` from its normalized components
recovers the total microseconds. -/
theorem deltaToMicros_ofMicros (t : Int) :
    deltaToMicros (Timedelta.ofMicros t) = t := by
  have h1 := Int.fdiv_add_fmod t 1000000
  have h2 := Int.fdiv_add_fmod (t.fdiv 1000000) 86400
  simp only [deltaToMicros, Timedelta.ofMicros, SECONDS_TO_MICROS,
    DAYS_TO_MICROS]
  linarith

/-- C10: for every timezone-aware datetime with a fixed-offset timezone,
the slider serialization round-trips exactly:
`_micros_to_datetime(_datetime_to_micros(dt), dt.tzinfo) == dt`, where
`_datetime_to_micros` gives the whole microseconds since the UTC epoch. -/
theorem datetime_micros_roundtrip (dt : AwareDatetime) :
    microsToDatetime (datetimeToMicros dt) dt.offsetMicros = dt
    ∧ datetimeToMicros dt = dt.instant := by
  obtain ⟨w, o⟩ := dt
  have hmicros : datetimeToMicros ⟨w, o⟩ = w - o := by
    simp only [datetimeToMicros, datetimeSub, astimezone,
      AwareDatetime.instant, UTC_EPOCH]
    rw [deltaToMicros_ofMicros]
    ring
  refine ⟨?_, by simpa [AwareDatetime.instant] using hmicros⟩
  rw [hmicros]
  simp only [microsToDatetime, replaceTz, astimezone, datetimeAddMicros,
    AwareDatetime.instant, UTC_EPOCH]
  congr 1
  ring

end Streamlit
